import Mathlib

/-!
# Verification of the iFRep rasterizer (`frep_multicore.py`)

Shallow embedding of the functional-representation rasterizer:

* the expression translator `python_expr_to_c` (character-level, including the
  regular-expression rewrites it performs),
* the grid model, layer-intensity computation and per-pixel accumulation of the
  vectorized (NumPy) path and of the generated native (C) program,
* the native backend's toolchain/cleanup control flow, and
* the command-line argument handling.

Machine floating point is modelled by exact rational arithmetic (`ℚ`); Python
`int(...)` truncation and the C `(int)`/`(png_uint_32)` casts are modelled by
truncation toward zero on `ℚ`.  The 32-bit accumulator of both backends is
modelled as a natural number reduced modulo `2 ^ 32`.  Expression evaluation
itself (Python `eval` on NumPy arrays / the generated scalar C function `fn`)
is abstracted by a per-sample value function `v : ℚ → ℚ → ℚ → ℕ`, applied
pointwise on the grid, since both paths evaluate the same document expression
elementwise at the sample coordinates.
-/

namespace IFRep

/-! ## Character classes (ASCII model of Python's `\s`, `\d`, `\w`) -/

/-- ASCII whitespace, Python regex `\s` (on the ASCII inputs this program handles). -/
def isSpaceCh (c : Char) : Bool :=
  c = ' ' || c = '\t' || c = '\n' || c = '\r' || c = '\x0b' || c = '\x0c'

/-- Decimal digit, Python regex `\d`. -/
def isDigitCh (c : Char) : Bool := '0' ≤ c && c ≤ '9'

/-- Word character, Python regex `\w` (ASCII). -/
def isWordCh (c : Char) : Bool :=
  ('a' ≤ c && c ≤ 'z') || ('A' ≤ c && c ≤ 'Z') || isDigitCh c || c = '_'

/-! ## The expression translator `python_expr_to_c`

`python_expr_to_c` performs, in order:
`str.replace` of `X`/`Y`/`Z` by `x`/`y`/`z`; `str.replace('math.', '')`;
`re.sub(r'\bpi\b', 'M_PI', fn)`; the loop
`while '**' in fn: fn = re.sub(r'(\S+)\s*\*\*\s*(\d+\.?\d*|\w+(?:\.\w+)?)', r'pow(\1,\2)', fn, count=1)`;
`str.replace(' & ', ' && ')`; `str.replace(' | ', ' || ')`; `str.replace('~', '!')`.
Each is embedded below at the level of character lists. -/

/-- Python `str.replace(a, b)` for single characters: replace every occurrence. -/
def replaceChar (a b : Char) (l : List Char) : List Char :=
  l.map fun c => if c = a then b else c

/-- Python `fn.replace('math.', '')`: delete occurrences of `math.` left to
right, non-overlapping, resuming after each deleted occurrence. -/
def replaceMath : List Char → List Char
  | 'm' :: 'a' :: 't' :: 'h' :: '.' :: rest => replaceMath rest
  | c :: cs => c :: replaceMath cs
  | [] => []

/-- Whether the string contains the substring `math.` (trigger of `replaceMath`). -/
def hasMath : List Char → Bool
  | 'm' :: 'a' :: 't' :: 'h' :: '.' :: _ => true
  | _ :: cs => hasMath cs
  | [] => false

/-- Python `re.sub(r'\bpi\b', 'M_PI', fn)`: replace every occurrence of `pi`
delimited by word boundaries, scanning left to right.  The flag tracks whether
the previous character of the original string is a word character (false at the
start of the string). -/
def piSub : Bool → List Char → List Char
  | _, [] => []
  | prevW, 'p' :: 'i' :: rest =>
    if !prevW && (match rest with | [] => true | c :: _ => !isWordCh c) then
      'M' :: '_' :: 'P' :: 'I' :: piSub true rest
    else
      'p' :: piSub true ('i' :: rest)
  | _, c :: cs => c :: piSub (isWordCh c) cs

/-- Whether `re.sub(r'\bpi\b', ...)` would find a match (same scan as `piSub`). -/
def hasPiTok : Bool → List Char → Bool
  | _, [] => false
  | prevW, 'p' :: 'i' :: rest =>
    if !prevW && (match rest with | [] => true | c :: _ => !isWordCh c) then true
    else hasPiTok true ('i' :: rest)
  | _, c :: cs => hasPiTok (isWordCh c) cs

/-- Python `'**' in fn`: the string contains two consecutive asterisks. -/
def hasSS : List Char → Bool
  | '*' :: '*' :: _ => true
  | _ :: cs => hasSS cs
  | [] => false

/-- Second capture group `(\d+\.?\d*|\w+(?:\.\w+)?)` of the power-rewrite
pattern, matched at the head of `l`.  The first alternative is tried first;
since nothing follows the group in the pattern, each quantifier simply takes
its greedy maximal extent.  Returns the captured text and the remaining
suffix. -/
def group2 (l : List Char) : Option (List Char × List Char) :=
  match l with
  | [] => none
  | c :: _ =>
    if isDigitCh c then
      let d1 := l.takeWhile isDigitCh
      let r1 := l.dropWhile isDigitCh
      match r1 with
      | '.' :: r2 => some (d1 ++ '.' :: r2.takeWhile isDigitCh, r2.dropWhile isDigitCh)
      | _ => some (d1, r1)
    else if isWordCh c then
      let w1 := l.takeWhile isWordCh
      let r1 := l.dropWhile isWordCh
      match r1 with
      | '.' :: c2 :: r2 =>
        if isWordCh c2 then
          some (w1 ++ '.' :: (c2 :: r2).takeWhile isWordCh, (c2 :: r2).dropWhile isWordCh)
        else some (w1, r1)
      | _ => some (w1, r1)
    else none

/-- After the first capture group: `\s*\*\*\s*` then `group2`.  The whitespace
runs are maximal; `**` (two literal asterisks) must follow the first run and
the second capture group must start right after the second run (shorter
whitespace extents land on a whitespace character, where both `\*` and the
group alternatives fail, so only the maximal extents are viable). -/
def matchStars (l : List Char) : Option (List Char × List Char) :=
  match l.dropWhile isSpaceCh with
  | '*' :: '*' :: r2 => group2 (r2.dropWhile isSpaceCh)
  | _ => none

/-- Greedy backtracking of `\S+` at a fixed start position: `tok` is the
maximal nonspace run there; try capture lengths `k, k-1, ..., 1`. -/
def tryLens : Nat → List Char → List Char → Option (List Char × List Char × List Char)
  | 0, _, _ => none
  | k + 1, tok, rest =>
    match matchStars (tok.drop (k + 1) ++ rest) with
    | some (g2, suf) => some (tok.take (k + 1), g2, suf)
    | none => tryLens k tok rest

/-- Leftmost match of `(\S+)\s*\*\*\s*(\d+\.?\d*|\w+(?:\.\w+)?)` as found by
`re.sub(..., count=1)`: start positions are tried left to right; at each
position `\S+` captures greedily with backtracking.  Returns
`(text before the match, group 1, group 2, text after the match)`. -/
def findMatch : List Char → Option (List Char × List Char × List Char × List Char)
  | [] => none
  | c :: cs =>
    if isSpaceCh c then
      (findMatch cs).map fun r => (c :: r.1, r.2.1, r.2.2.1, r.2.2.2)
    else
      let tok := c :: cs.takeWhile (fun x => !isSpaceCh x)
      match tryLens tok.length tok (cs.dropWhile (fun x => !isSpaceCh x)) with
      | some (g1, g2, suf) => some ([], g1, g2, suf)
      | none => (findMatch cs).map fun r => (c :: r.1, r.2.1, r.2.2.1, r.2.2.2)

/-- One pass of
`re.sub(r'(\S+)\s*\*\*\s*(\d+\.?\d*|\w+(?:\.\w+)?)', r'pow(\1,\2)', fn, count=1)`:
replace the leftmost match by `pow(<g1>,<g2>)`, or return the string unchanged
when there is no match. -/
def powStep (l : List Char) : List Char :=
  match findMatch l with
  | none => l
  | some (pre, g1, g2, suf) =>
    pre ++ 'p' :: 'o' :: 'w' :: '(' :: (g1 ++ ',' :: (g2 ++ ')' :: suf))

/-- The `while '**' in fn` loop, with fuel.  `none` means the fuel ran out,
i.e. the loop had not finished after that many iterations; in particular, if
`powStep` leaves the string unchanged while `**` is still present, the Python
loop never terminates and this function returns `none` for every fuel. -/
def powLoop : Nat → List Char → Option (List Char)
  | 0, l => if hasSS l then none else some l
  | n + 1, l => if hasSS l then powLoop n (powStep l) else some l

/-- Python `fn.replace(' & ', ' && ')`, left to right, non-overlapping,
resuming after each replacement. -/
def replaceAmp : List Char → List Char
  | ' ' :: '&' :: ' ' :: rest => ' ' :: '&' :: '&' :: ' ' :: replaceAmp rest
  | c :: cs => c :: replaceAmp cs
  | [] => []

/-- Whether the string contains ` & ` (trigger of `replaceAmp`). -/
def hasAmp : List Char → Bool
  | ' ' :: '&' :: ' ' :: _ => true
  | _ :: cs => hasAmp cs
  | [] => false

/-- Python `fn.replace(' | ', ' || ')`, left to right, non-overlapping. -/
def replacePipe : List Char → List Char
  | ' ' :: '|' :: ' ' :: rest => ' ' :: '|' :: '|' :: ' ' :: replacePipe rest
  | c :: cs => c :: replacePipe cs
  | [] => []

/-- Whether the string contains ` | ` (trigger of `replacePipe`). -/
def hasPipe : List Char → Bool
  | ' ' :: '|' :: ' ' :: _ => true
  | _ :: cs => hasPipe cs
  | [] => false

/-- The string contains no occurrence of the character `a`. -/
def noChar (a : Char) (l : List Char) : Bool := l.all fun c => c != a

/-- `python_expr_to_c` on character lists: the full rewrite sequence of the
source, in source order — lowercase `X` `Y` `Z`, strip `math.`, rewrite
word-bounded `pi`, run the power-rewrite loop (with fuel), then the logical
operator rewrites. -/
def pyToCL (fuel : Nat) (l : List Char) : Option (List Char) :=
  match powLoop fuel
      (piSub false
        (replaceMath (replaceChar 'Z' 'z' (replaceChar 'Y' 'y' (replaceChar 'X' 'x' l))))) with
  | some s4 => some (replaceChar '~' '!' (replacePipe (replaceAmp s4)))
  | none => none

/-- `python_expr_to_c` on strings.  `none` means the power-rewrite loop had
not terminated within `fuel` iterations. -/
def python_expr_to_c (fuel : Nat) (s : String) : Option String :=
  (pyToCL fuel s.toList).map fun l => String.mk l

/-! ## Numeric model -/

/-- Truncation toward zero on `ℚ`: Python `int(...)` applied to a float, and
the C casts `(int)`/`(png_uint_32)` applied to a nonnegative double. -/
def truncQ (q : ℚ) : ℤ := if 0 ≤ q then ⌊q⌋ else ⌈q⌉

/-- Modulus of the 32-bit per-pixel accumulator (`uint32` NumPy array in the
vectorized path, 32-bit `int` buffer in the generated C program). -/
def U32 : ℕ := 4294967296

/-- Unpacking one 32-bit accumulator entry into 8-bit `(red, green, blue)`
channels: `f & 255`, `(f >> 8) & 255`, `(f >> 16) & 255`.  Identical in the
vectorized path (lines filling `m[:, :, 0..2]`) and in the generated C row
writer (the C program additionally emits a constant opaque alpha byte, which
is not part of the RGB comparison). -/
def chan (f : ℕ) : ℕ × ℕ × ℕ := (f &&& 255, (f >>> 8) &&& 255, (f >>> 16) &&& 255)

/-- Python runtime errors reachable in this pipeline: `ZeroDivisionError`
(division by zero) and `ValueError` (`min`/`max` of an empty sequence). -/
inductive PyErr
  | zeroDivision
  | valueError
deriving DecidableEq

instance {e a : Type} [DecidableEq e] [DecidableEq a] : DecidableEq (Except e a) := fun x y =>
  match x, y with
  | .ok u, .ok v => decidable_of_iff (u = v) (by simp)
  | .error u, .error v => decidable_of_iff (u = v) (by simp)
  | .ok _, .error _ => isFalse (by intro h; cases h)
  | .error _, .ok _ => isFalse (by intro h; cases h)

/-- Python division: raises `ZeroDivisionError` on a zero divisor (for both
`int` and `float` operands). -/
def pyDiv (a b : ℚ) : Except PyErr ℚ := if b = 0 then .error .zeroDivision else .ok (a / b)

/-- Python `min` of a list (raises `ValueError` on `[]`; callers guard). -/
def minQ : List ℚ → ℚ
  | [] => 0
  | x :: xs => xs.foldl min x

/-- Python `max` of a list. -/
def maxQ : List ℚ → ℚ
  | [] => 0
  | x :: xs => xs.foldl max x

/-- The FRep document (a JSON object with `type` `RGB`): bounds, the
`mm_per_unit` scale, and the ordered layer heights.  The expression string is
carried separately as an abstract per-sample value function. -/
structure Doc where
  xmin : ℚ
  xmax : ℚ
  ymin : ℚ
  ymax : ℚ
  units : ℚ
  layers : List ℚ

/-! ## Grid model -/

/-- Grid pitch `delta = (25.4 / dpi) / units`, with Python's division-by-zero
behavior (`25.4 / dpi` first, then `/ units`). -/
def pyDelta (dpi : ℤ) (units : ℚ) : Except PyErr ℚ := do
  let t ← pyDiv (254 / 10) (dpi : ℚ)
  pyDiv t units

/-- Grid pitch as a plain rational, for use once `dpi ≠ 0` and `units ≠ 0`. -/
def deltaQ (dpi : ℤ) (units : ℚ) : ℚ := 254 / 10 / (dpi : ℚ) / units

/-- Number of samples of `numpy.arange(a, b, d)` in exact arithmetic:
`max 0 ⌈(b - a) / d⌉` (open upper bound; empty when the ratio is
nonpositive, e.g. for a negative step with `a < b`). -/
def arangeLen (a b d : ℚ) : ℕ := (⌈(b - a) / d⌉).toNat

/-- Vectorized-path grid construction: pitch, then
`x = arange(xmin, xmax, delta)` and `y = flip(arange(ymin, ymax, delta))`.
Returns `(nx, ny, delta)`. -/
def npGrid (d : Doc) (dpi : ℤ) : Except PyErr (ℕ × ℕ × ℚ) := do
  let delta ← pyDelta dpi d.units
  .ok (arangeLen d.xmin d.xmax delta, arangeLen d.ymin d.ymax delta, delta)

/-- Native-path grid construction performed in Python before code generation:
`nx = int((xmax - xmin) / delta)`, `ny = int((ymax - ymin) / delta)` —
truncation, not the `arange` count.  Returns `(nx, ny, delta)`. -/
def cGrid (d : Doc) (dpi : ℤ) : Except PyErr (ℤ × ℤ × ℚ) := do
  let delta ← pyDelta dpi d.units
  .ok (truncQ ((d.xmax - d.xmin) / delta), truncQ ((d.ymax - d.ymin) / delta), delta)

/-- Sample x-coordinate of column `ix`: `xmin + ix * delta` (both paths). -/
def xCoord (d : Doc) (delta : ℚ) (ix : ℕ) : ℚ := d.xmin + ix * delta

/-- Sample y-coordinate of image row `r` (row 0 at the top).  The vectorized
path flips the ascending `arange`, the generated C program writes rows from
`iy = ny - 1` down to `0`; both give row `r` the coordinate
`ymin + (ny - 1 - r) * delta`. -/
def yCoord (d : Doc) (delta : ℚ) (ny r : ℕ) : ℚ := d.ymin + ((ny - 1 - r : ℕ) : ℚ) * delta

/-! ## Layer intensity and per-pixel accumulation -/

/-- The multi-layer intensity value
`int(255 * (Z - zmin) / (zmax - zmin)) | (255 << 8) | (255 << 16)`
(meaningful for `zmin ≤ Z ≤ zmax`, `zmin < zmax`, where the truncated
quotient is a nonnegative integer). -/
def intensityVal (Z zmn zmx : ℚ) : ℕ :=
  (truncQ (255 * (Z - zmn) / (zmx - zmn))).toNat ||| (255 : ℕ) <<< 8 ||| (255 : ℕ) <<< 16

/-- Vectorized-path intensity: the division raises `ZeroDivisionError` when
`zmax - zmin = 0` (there is no degenerate-case guard in the NumPy path). -/
def intensityNp (Z zmn zmx : ℚ) : Except PyErr ℕ :=
  if zmx - zmn = 0 then .error .zeroDivision else .ok (intensityVal Z zmn zmx)

/-- Generated-C intensity: the code guards `if (zmin == zmax)` and uses
`0xffffff`; otherwise the same formula as the vectorized path. -/
def intensityC (Z zmn zmx : ℚ) : ℕ :=
  if zmn = zmx then 0xffffff else intensityVal Z zmn zmx

/-- Vectorized multi-layer accumulation at one pixel, layers in document
order: `f = f + (i & expr.astype(uint32))` on a `uint32` buffer, where
`w Z` is the expression value at this sample for layer height `Z` (a boolean
mask becomes `0`/`1` under `astype(uint32)`).  Note the bitwise AND of the
intensity with the mask value — not a selection of the intensity. -/
def npAccum (layers : List ℚ) (zmn zmx : ℚ) (w : ℚ → ℕ) : Except PyErr ℕ :=
  layers.foldlM
    (fun f Z => (intensityNp Z zmn zmx).map fun i => (f + (i &&& w Z % U32)) % U32) 0

/-- Generated-C accumulation at one pixel, layers in document order:
`m[iy*nx+ix] += (fn(x,y,z) ? intensity : 0)` on the 32-bit buffer.  Each
pixel is written by exactly one worker thread (the row partition
`[thread*ny/nthreads, (thread+1)*ny/nthreads)` is disjoint), so the per-pixel
result does not depend on the thread decomposition. -/
def cAccum (layers : List ℚ) (zmn zmx : ℚ) (w : ℚ → ℕ) : ℕ :=
  layers.foldl
    (fun f Z => (f + (if w Z = 0 then 0 else intensityC Z zmn zmx)) % U32) 0

/-- Accumulation as the frozen claim C2 words it for both backends: the
accumulator receives, summed over layers, the intensity `i` where the mask is
nonzero and `0` where it is zero. -/
def claimAccum (layers : List ℚ) (zmn zmx : ℚ) (w : ℚ → ℕ) : ℕ :=
  ((layers.map fun Z => if w Z = 0 then 0 else intensityVal Z zmn zmx).sum) % U32

/-! ## Full renders

Both renders are parametrized by the abstract per-sample expression value
`v x y Z` (a natural number; `astype(uint32)` and C `int` truthiness are
applied where the code does). -/

/-- The vectorized (NumPy) render: grid, then either the single-layer direct
evaluation `f = eval(function).astype(uint32)` or the multi-layer intensity
accumulation, then channel unpacking.  Row 0 is the top row (descending y). -/
def npImage (d : Doc) (dpi : ℤ) (v : ℚ → ℚ → ℚ → ℕ) :
    Except PyErr (List (List (ℕ × ℕ × ℕ))) := do
  let g ← npGrid d dpi
  let nx := g.1
  let ny := g.2.1
  let delta := g.2.2
  match d.layers with
  | [] => .error .valueError
  | [Z] =>
    .ok <| (List.range ny).map fun r =>
      (List.range nx).map fun ix =>
        chan (v (xCoord d delta ix) (yCoord d delta ny r) Z % U32)
  | _ =>
    let zmn := minQ d.layers
    let zmx := maxQ d.layers
    (List.range ny).mapM fun r =>
      (List.range nx).mapM fun ix =>
        (npAccum d.layers zmn zmx (v (xCoord d delta ix) (yCoord d delta ny r))).map chan

/-- The native render as computed by the generated C program (same layer
accumulation for any number of layers; rows are emitted bottom-up so that row
0 of the file is again the top row).  `zmin`/`zmax` are computed in Python
before code generation, so an empty layer list raises `ValueError` there. -/
def cImage (d : Doc) (dpi : ℤ) (v : ℚ → ℚ → ℚ → ℕ) :
    Except PyErr (List (List (ℕ × ℕ × ℕ))) := do
  if d.layers = [] then .error .valueError else
  let g ← cGrid d dpi
  let nx := g.1.toNat
  let ny := g.2.1.toNat
  let delta := g.2.2
  let zmn := minQ d.layers
  let zmx := maxQ d.layers
  .ok <| (List.range ny).map fun r =>
    (List.range nx).map fun ix =>
      chan (cAccum d.layers zmn zmx (v (xCoord d delta ix) (yCoord d delta ny r)))

/-- Resolution metadata written by the generated C program:
`png_set_pHYs(png, info, (png_uint_32)(1000*dpi/25.4), (png_uint_32)(1000*dpi/25.4), ...)`
— the same truncated value in the horizontal and the vertical field. -/
def pHYsPPM (dpi : ℤ) : ℤ := truncQ ((1000 * dpi : ℚ) / (254 / 10))

/-! ## Native backend toolchain control flow (`run_c_backend`) -/

/-- Outcomes of the external steps of a native render: whether `gcc` compiles
the generated source successfully (found and exit 0), whether `clang` does,
whether the compiled program exits with status 0, and whether a file with the
requested output's basename exists in the temporary directory afterwards. -/
structure CEnv where
  gccOk : Bool
  clangOk : Bool
  runOk : Bool
  outFileInTmp : Bool

/-- Failures of the native path: no working compiler (`sys.exit(1)` after the
diagnostic) and nonzero exit of the generated program (uncaught
`CalledProcessError`). -/
inductive NativeErr
  | toolchainUnavailable
  | nativeExecutionFailed
deriving DecidableEq

/-- Observable filesystem/stream state of a native render. -/
structure NativeState where
  tmpdirExists : Bool
  outputWritten : Bool
  stderrLines : List String
deriving DecidableEq

/-- The compiler probe loop: try `gcc` then `clang`; first success wins. -/
def compileSelect (env : CEnv) : Option Nat :=
  if env.gccOk then some 0 else if env.clangOk then some 1 else none

/-- The body of the `try:` block of `run_c_backend`: write the source, compile
with the first working compiler (diagnostic on stderr and failure if none),
execute the program (failure on nonzero exit), and move the produced file to
the requested output path if it exists — silently skipping the move when it
does not. -/
def nativeBody (env : CEnv) (st : NativeState) : NativeState × Except NativeErr Unit :=
  match compileSelect env with
  | none =>
    ({ st with stderrLines := st.stderrLines ++ ["error: need gcc or clang to compile C backend"] },
     .error .toolchainUnavailable)
  | some _ =>
    if env.runOk then
      if env.outFileInTmp then ({ st with outputWritten := true }, .ok ()) else (st, .ok ())
    else (st, .error .nativeExecutionFailed)

/-- `run_c_backend`: `tmpdir = tempfile.mkdtemp(...)`, the `try:` body, and the
`finally: shutil.rmtree(tmpdir, ...)` clause, which removes the temporary
directory on every exit path (normal return, `sys.exit`, or a propagating
exception) before control leaves the function. -/
def run_c_backend (env : CEnv) : NativeState × Except NativeErr Unit :=
  let st0 : NativeState := { tmpdirExists := true, outputWritten := false, stderrLines := [] }
  let b := nativeBody env st0
  ({ b.1 with tmpdirExists := false }, b.2)

/-- Process exit code of the native path: 0 on success; 1 both for the
explicit `sys.exit(1)` (no toolchain) and for the uncaught exception of a
failed execution. -/
def exitCodeOf (r : Except NativeErr Unit) : ℕ :=
  match r with
  | .ok _ => 0
  | .error _ => 1

/-! ## Command-line argument handling -/

/-- Digit-string value: Python `int(...)` on a nonempty all-digit string. -/
def digitsVal (l : List Char) : Option ℕ :=
  match l with
  | [] => none
  | _ =>
    if l.all isDigitCh then some (l.foldl (fun a c => 10 * a + (c.toNat - 48)) 0) else none

/-- Python `int(s)` on the ASCII decimal literals relevant here: surrounding
whitespace stripped, an optional single sign, then a nonempty digit string;
everything else raises `ValueError` (modelled as `none`). -/
def pyIntL (l : List Char) : Option ℤ :=
  let t := ((l.dropWhile isSpaceCh).reverse.dropWhile isSpaceCh).reverse
  match t with
  | '-' :: ds => (digitsVal ds).map fun n => -(n : ℤ)
  | '+' :: ds => (digitsVal ds).map fun n => (n : ℤ)
  | ds => (digitsVal ds).map fun n => (n : ℤ)

/-- `int()` on strings. -/
def pythonInt (s : String) : Option ℤ := pyIntL s.toList

/-- The two flag spellings the script filters out of `sys.argv[1:]` and tests
for: `--c` and `-c`. -/
def isCFlag (s : String) : Bool := s == "--c" || s == "-c"

/-- The script's argv handling: `args` drops the `--c`/`-c` flags, `use_c` is
set when either flag is present; no positional argument gives `dpi = 100`
(overridden to 300 on the native path) and `out.png`; one gives
`dpi = int(args[0])` and `out.png`; two or more give `dpi = int(args[0])` and
`filename = args[1]`.  `none` models the uncaught `ValueError` of `int()`. -/
def parseArgv (argv : List String) : Option (Bool × ℤ × String) :=
  let args := argv.filter fun a => !isCFlag a
  let use_c := argv.any isCFlag
  match args with
  | [] => some (use_c, if use_c then 300 else 100, "out.png")
  | [a] => (pyIntL a.toList).map fun dv => (use_c, dv, "out.png")
  | a :: b :: _ => (pyIntL a.toList).map fun dv => (use_c, dv, b)

/-! ## Sample documents used by concrete witnesses and counterexamples -/

/-- A unit-square single-layer document with `mm_per_unit = 25.4`, so that a
render at `dpi = 1` has pitch `delta = 1` and a 1×1 pixel grid. -/
def d0 : Doc := { xmin := 0, xmax := 1, ymin := 0, ymax := 1, units := 254 / 10, layers := [0] }

/-- The same square with two coincident layer heights (`zmin = zmax = 1`). -/
def d1 : Doc := { xmin := 0, xmax := 1, ymin := 0, ymax := 1, units := 254 / 10, layers := [1, 1] }

/-! ## General lemmas -/

theorem pyDelta_ok (dpi : ℤ) (u : ℚ) (h1 : (dpi : ℚ) ≠ 0) (h2 : u ≠ 0) :
    pyDelta dpi u = .ok (deltaQ dpi u) := by
  unfold pyDelta pyDiv deltaQ
  rw [if_neg h1]
  show (if u = 0 then _ else _) = _
  rw [if_neg h2]

theorem U32_pos : 0 < U32 := by decide

theorem foldl_mod_eq_sum (g : ℚ → ℕ) (l : List ℚ) (a : ℕ) (ha : a < U32) :
    l.foldl (fun f Z => (f + g Z) % U32) a = (a + (l.map g).sum) % U32 := by
  induction l generalizing a with
  | nil => simpa using (Nat.mod_eq_of_lt ha).symm
  | cons Z l ih =>
    rw [List.foldl_cons, ih _ (Nat.mod_lt _ U32_pos), Nat.mod_add_mod, List.map_cons,
      List.sum_cons, Nat.add_assoc]

theorem npAccum_foldlM (l : List ℚ) (zmn zmx : ℚ) (w : ℚ → ℕ) (h : zmx - zmn ≠ 0) (a : ℕ) :
    l.foldlM
      (fun f Z => (intensityNp Z zmn zmx).map fun i => (f + (i &&& w Z % U32)) % U32) a
      = .ok (l.foldl (fun f Z => (f + (intensityVal Z zmn zmx &&& w Z % U32)) % U32) a) := by
  induction l generalizing a with
  | nil => rfl
  | cons Z l ih =>
    rw [List.foldlM_cons, intensityNp, if_neg h]
    exact ih _

/-- Closed form of the vectorized multi-layer accumulation when
`zmax - zmin ≠ 0`: the sum over layers (in document order) of the intensity
ANDed with the mask value, reduced modulo `2 ^ 32`. -/
theorem npAccum_eq_sum (l : List ℚ) (zmn zmx : ℚ) (w : ℚ → ℕ) (h : zmx - zmn ≠ 0) :
    npAccum l zmn zmx w
      = .ok (((l.map fun Z => intensityVal Z zmn zmx &&& w Z % U32).sum) % U32) := by
  rw [npAccum, npAccum_foldlM l zmn zmx w h 0,
    foldl_mod_eq_sum (fun Z => intensityVal Z zmn zmx &&& w Z % U32) l 0 U32_pos,
    Nat.zero_add]

/-- Closed form of the generated-C accumulation: the sum over layers of
`mask ≠ 0 ? intensity : 0`, reduced modulo `2 ^ 32`. -/
theorem cAccum_eq_sum (l : List ℚ) (zmn zmx : ℚ) (w : ℚ → ℕ) :
    cAccum l zmn zmx w
      = ((l.map fun Z => if w Z = 0 then 0 else intensityC Z zmn zmx).sum) % U32 := by
  rw [cAccum, foldl_mod_eq_sum (fun Z => if w Z = 0 then 0 else intensityC Z zmn zmx) l 0 U32_pos,
    Nat.zero_add]

/-! ## Identity lemmas for the translator's individual rewrites -/

theorem replaceChar_id (a b : Char) (l : List Char) (h : noChar a l = true) :
    replaceChar a b l = l := by
  unfold replaceChar
  have h' := (List.all_eq_true).mp h
  conv_rhs => rw [(List.map_id l).symm]
  refine List.map_congr_left fun c hc => ?_
  rw [if_neg (by simpa using h' c hc), id_eq]

theorem replaceMath_id (l : List Char) (h : hasMath l = false) : replaceMath l = l := by
  induction l using replaceMath.induct with
  | case1 rest ih => simp [hasMath] at h
  | case2 c cs hne ih =>
    rw [replaceMath.eq_2 _ _ hne, ih (by rw [hasMath.eq_2 _ _ hne] at h; exact h)]
  | case3 => rfl

theorem piSub_id (prevW : Bool) (l : List Char) :
    hasPiTok prevW l = false → piSub prevW l = l := by
  induction prevW, l using piSub.induct with
  | case1 x => intro h; rfl
  | case2 pW rest hcond ih =>
    intro h
    cases rest with
    | nil =>
      rw [hasPiTok.eq_2, if_pos (by simpa using hcond)] at h
      cases h
    | cons c tail =>
      rw [hasPiTok.eq_3, if_pos (by simpa using hcond)] at h
      cases h
  | case3 pW rest hcond ih =>
    intro h
    cases rest with
    | nil =>
      rw [hasPiTok.eq_2, if_neg (by simpa using hcond)] at h
      rw [piSub.eq_2, if_neg (by simpa using hcond), ih h]
    | cons c tail =>
      rw [hasPiTok.eq_3, if_neg (by simpa using hcond)] at h
      rw [piSub.eq_3, if_neg (by simpa using hcond), ih h]
  | case4 x c cs hne ih =>
    intro h
    rw [hasPiTok.eq_4 _ _ _ hne] at h
    rw [piSub.eq_4 _ _ _ hne, ih h]

theorem powLoop_no_ss_id (fuel : Nat) (l : List Char) (h : hasSS l = false) :
    powLoop fuel l = some l := by
  cases fuel <;> simp [powLoop, h]

theorem replaceAmp_id (l : List Char) (h : hasAmp l = false) : replaceAmp l = l := by
  induction l using replaceAmp.induct with
  | case1 rest ih => simp [hasAmp] at h
  | case2 c cs hne ih =>
    rw [replaceAmp.eq_2 _ _ hne, ih (by rw [hasAmp.eq_2 _ _ hne] at h; exact h)]
  | case3 => rfl

theorem replacePipe_id (l : List Char) (h : hasPipe l = false) : replacePipe l = l := by
  induction l using replacePipe.induct with
  | case1 rest ih => simp [hasPipe] at h
  | case2 c cs hne ih =>
    rw [replacePipe.eq_2 _ _ hne, ih (by rw [hasPipe.eq_2 _ _ hne] at h; exact h)]
  | case3 => rfl

/-! ## Lemmas for the power-rewrite loop (claim C3) -/

theorem powLoop_some_no_ss (n : Nat) (l t : List Char) (h : powLoop n l = some t) :
    hasSS t = false := by
  induction n generalizing l with
  | zero =>
    unfold powLoop at h
    cases hs : hasSS l with
    | true => simp [hs] at h
    | false => simp [hs] at h; subst h; exact hs
  | succ m ih =>
    unfold powLoop at h
    cases hs : hasSS l with
    | true => simp [hs] at h; exact ih _ h
    | false => simp [hs] at h; subst h; exact hs

theorem powLoop_stuck (l : List Char) (h1 : hasSS l = true) (h2 : powStep l = l) :
    ∀ n, powLoop n l = none := by
  intro n
  induction n with
  | zero => simp [powLoop, h1]
  | succ m ih => simp [powLoop, h1, h2, ih]

/-! ## Claim C3: termination of the power-operator rewrite -/

/-- C3 (corrected): the power-operator rewrite loop does not terminate on
every input expression string (counterexample: `x ** (2)`, whose
parenthesized right operand never matches the substitution pattern, so the
pass leaves the string unchanged forever).  What does hold: whenever the loop
terminates its output contains no `**` operator, and right-associative chains
such as `a**b**c` do terminate, yielding nested two-argument `pow` calls. -/
theorem pow_rewrite_output_free_of_power :
    (∀ (n : Nat) (l t : List Char), powLoop n l = some t → hasSS t = false) ∧
    powLoop 2 (String.toList "a**b**c") = some (String.toList "pow(pow(a,b),c)") :=
  ⟨powLoop_some_no_ss, by decide⟩

/-- C3 witness: the terminating chain `a**b**c` indeed ends power-free. -/
theorem pow_rewrite_output_free_of_power_witness :
    hasSS (String.toList "pow(pow(a,b),c)") = false :=
  pow_rewrite_output_free_of_power.1 2 (String.toList "a**b**c") _
    pow_rewrite_output_free_of_power.2

/-- C3 counterexample: on `x ** (2)` the substitution pattern never matches
(`(2)` is neither a numeric literal nor a dotted identifier), the string is
left unchanged while `**` remains, and the `while '**' in fn` loop therefore
never terminates: no amount of fuel produces a result. -/
theorem pow_rewrite_nontermination_counterexample :
    ¬ ∃ (n : Nat) (t : List Char), powLoop n (String.toList "x ** (2)") = some t := by
  rintro ⟨n, t, h⟩
  rw [powLoop_stuck (String.toList "x ** (2)") (by decide) (by decide) n] at h
  cases h

/-! ## Claim C5: idempotence of the scalar-form translation -/

/-- C5 (corrected): `python_expr_to_c` applied to any string already free of
every rewrite trigger — containing no `X`, `Y`, `Z`, no `math.`, no
word-bounded `pi`, no `**`, no ` & `, no ` | `, and no `~` — returns the
string unchanged.  A first translation's output need not be trigger-free, so
translating twice is not always the same as translating once (see the
counterexample). -/
theorem translation_identity_on_trigger_free :
    ∀ (l : List Char) (fuel : Nat),
      noChar 'X' l = true → noChar 'Y' l = true → noChar 'Z' l = true →
      hasMath l = false → hasPiTok false l = false → hasSS l = false →
      hasAmp l = false → hasPipe l = false → noChar '~' l = true →
      pyToCL fuel l = some l := by
  intro l fuel hX hY hZ hM hP hS hA hO hT
  unfold pyToCL
  rw [replaceChar_id 'X' 'x' l hX, replaceChar_id 'Y' 'y' l hY, replaceChar_id 'Z' 'z' l hZ,
    replaceMath_id l hM, piSub_id false l hP, powLoop_no_ss_id fuel l hS]
  show some (replaceChar '~' '!' (replacePipe (replaceAmp l))) = some l
  rw [replaceAmp_id l hA, replacePipe_id l hO, replaceChar_id '~' '!' l hT]

/-- C5 witness: a fully translated scalar form is left unchanged. -/
theorem translation_identity_witness :
    pyToCL 0 (String.toList "pow(x,2) && y") = some (String.toList "pow(x,2) && y") :=
  translation_identity_on_trigger_free (String.toList "pow(x,2) && y") 0
    (by decide) (by decide) (by decide) (by decide) (by decide) (by decide)
    (by decide) (by decide) (by decide)

/-- C5 counterexample: the translation terminates on `a & & b` (no `**` at
all), yet translating its output again changes it: the ` & ` → ` && ` rewrite
of the first pass leaves a fresh ` & ` spanning the replacement boundary. -/
theorem translation_not_idempotent_counterexample :
    python_expr_to_c 1 "a & & b" = some "a && & b" ∧
    python_expr_to_c 1 "a && & b" = some "a && && b" ∧
    ("a && && b" : String) ≠ "a && & b" :=
  ⟨by decide, by decide, by decide⟩

/-! ## Claim C9: the CLI surface -/

/-- C9 (corrected): the native-backend flag spellings accepted by the script
are `--c` and `-c` — not `--native`; with that correction the defaults are as
claimed: no positional argument gives dpi 100 on the vectorized path and 300
on the native path with outfile `out.png`; one positional argument is parsed
as the dpi with outfile `out.png`; a second positional argument is the
outfile. -/
theorem cli_surface :
    parseArgv [] = some (false, 100, "out.png") ∧
    parseArgv ["--c"] = some (true, 300, "out.png") ∧
    parseArgv ["-c"] = some (true, 300, "out.png") ∧
    (∀ (s : String) (k : ℤ), pythonInt s = some k →
      parseArgv [s] = some (false, k, "out.png") ∧
      parseArgv ["--c", s] = some (true, k, "out.png") ∧
      (∀ out : String, isCFlag out = false →
        parseArgv [s, out] = some (false, k, out) ∧
        parseArgv ["--c", s, out] = some (true, k, out))) := by
  refine ⟨by decide, by decide, by decide, ?_⟩
  intro s k hk
  have hflag : isCFlag s = false := by
    cases hq : isCFlag s with
    | false => rfl
    | true =>
      have hs : s = "--c" ∨ s = "-c" := by simpa [isCFlag] using hq
      rcases hs with h1 | h1
      · rw [h1, show pythonInt "--c" = none from by decide] at hk
        cases hk
      · rw [h1, show pythonInt "-c" = none from by decide] at hk
        cases hk
  have hk' : pyIntL s.data = some k := hk
  have hc1 : isCFlag "--c" = true := by decide
  refine ⟨?_, ?_, fun out hout => ⟨?_, ?_⟩⟩
  · simp [parseArgv, List.filter_cons, List.any_cons, hflag, hk']
  · simp [parseArgv, List.filter_cons, List.any_cons, hflag, hk', hc1]
  · simp [parseArgv, List.filter_cons, List.any_cons, hflag, hk', hout]
  · simp [parseArgv, List.filter_cons, List.any_cons, hflag, hk', hc1, hout]

/-- C9 witness: concrete invocations exercising the corrected CLI contract. -/
theorem cli_surface_witness :
    parseArgv ["300", "a.png"] = some (false, 300, "a.png") ∧
    parseArgv ["--c", "300"] = some (true, 300, "out.png") :=
  ⟨((cli_surface.2.2.2 "300" 300 (by decide)).2.2 "a.png" (by decide)).1,
   (cli_surface.2.2.2 "300" 300 (by decide)).2.1⟩

/-- C9 counterexample: `--native` is not a recognized flag — it is treated as
a positional dpi argument and `int('--native')` raises `ValueError`, so the
script crashes instead of selecting the native backend; the flag that does
select it is `--c`. -/
theorem cli_native_flag_counterexample :
    parseArgv ["--native"] = none ∧ parseArgv ["--c"] = some (true, 300, "out.png") :=
  ⟨by decide, by decide⟩

/-! ## Claim C7: temporary-directory cleanup -/

/-- C7 (confirmed): for every combination of compile, execution and
output-file outcomes — success, no working compiler, and nonzero exit of the
generated program — the temporary working directory is removed before
`run_c_backend` returns: the `finally: shutil.rmtree(tmpdir, ...)` clause runs
on every exit path. -/
theorem tmpdir_always_removed (env : CEnv) :
    ((run_c_backend env).1).tmpdirExists = false := rfl

/-! ## Claim C10: silent success when the output file is missing -/

/-- C10 (confirmed): when a compiler works and the generated program exits
with status zero but no file with the requested output's basename exists in
the temporary directory, the native render completes with exit code 0,
writes nothing to the requested output path, and emits no diagnostic on the
error stream — the conditional move is silently skipped. -/
theorem missing_output_silent_success (env : CEnv)
    (hcc : env.gccOk = true ∨ env.clangOk = true)
    (hrun : env.runOk = true) (hout : env.outFileInTmp = false) :
    (run_c_backend env).2 = .ok () ∧
    ((run_c_backend env).1).outputWritten = false ∧
    ((run_c_backend env).1).stderrLines = [] ∧
    exitCodeOf (run_c_backend env).2 = 0 := by
  rcases env with ⟨g, c, r, o⟩
  simp only at hrun hout
  subst hrun
  subst hout
  rcases hcc with h | h
  · simp only at h
    subst h
    simp [run_c_backend, nativeBody, compileSelect, exitCodeOf]
  · simp only at h
    subst h
    cases g <;> simp [run_c_backend, nativeBody, compileSelect, exitCodeOf]

/-- C10 witness: gcc works, execution succeeds, no output file in the
temporary directory. -/
theorem missing_output_silent_success_witness :
    (run_c_backend ⟨true, false, true, false⟩).2 = .ok () ∧
    ((run_c_backend ⟨true, false, true, false⟩).1).outputWritten = false ∧
    ((run_c_backend ⟨true, false, true, false⟩).1).stderrLines = [] ∧
    exitCodeOf (run_c_backend ⟨true, false, true, false⟩).2 = 0 :=
  missing_output_silent_success ⟨true, false, true, false⟩ (Or.inl rfl) rfl rfl

/-! ## Claim C8: resolution metadata -/

/-- C8 (corrected): the pixels-per-meter fields written by the generated C
program truncate `1000 * dpi / 25.4` (C cast to `png_uint_32`) rather than
rounding it: for every positive dpi both fields equal
`⌊1000 * dpi / 25.4⌋ = ⌊5000 * dpi / 127⌋`. -/
theorem phys_metadata_truncates (dpi : ℤ) (h : 0 < dpi) :
    pHYsPPM dpi = ⌊(5000 * dpi : ℚ) / 127⌋ := by
  have hpos : (0 : ℚ) < (dpi : ℚ) := by exact_mod_cast h
  have hq : ((1000 * dpi : ℚ)) / (254 / 10) = (5000 * dpi : ℚ) / 127 := by
    rw [div_eq_div_iff (by norm_num) (by norm_num)]
    ring
  unfold pHYsPPM truncQ
  rw [if_pos (le_of_lt (by positivity)), hq]

/-- C8 witness: the truncated-field identity at dpi 2. -/
theorem phys_metadata_truncates_witness :
    (0 : ℤ) < 2 ∧ pHYsPPM 2 = ⌊(5000 * (2 : ℤ) : ℚ) / 127⌋ :=
  ⟨by norm_num, phys_metadata_truncates 2 (by norm_num)⟩

/-- C8 counterexample: at dpi 2 the value written is `⌊78.74...⌋ = 78`, while
`round(1000 * 2 / 25.4) = 79`. -/
theorem phys_metadata_round_counterexample :
    pHYsPPM 2 = 78 ∧ round ((1000 * (2 : ℤ) : ℚ) / (254 / 10)) = 79 ∧ (78 : ℤ) ≠ 79 := by
  refine ⟨?_, ?_, by decide⟩
  · unfold pHYsPPM truncQ
    rw [if_pos (by norm_num)]
    norm_num
  · rw [round_eq]
    norm_num

/-! ## Claim C6: the degenerate `zmin = zmax` case -/

/-- C6 (corrected): the two backends do not resolve the degenerate
`zmin = zmax` case identically — the vectorized path raises
`ZeroDivisionError` in the intensity computation, while the generated C
program special-cases the intensity to `0xffffff` and succeeds. -/
theorem degenerate_zrange_backends_diverge (Z zmn zmx : ℚ) (h : zmn = zmx) :
    intensityNp Z zmn zmx = .error .zeroDivision ∧ intensityC Z zmn zmx = 0xffffff := by
  subst h
  exact ⟨by rw [intensityNp, if_pos (by ring)], by rw [intensityC, if_pos rfl]⟩

/-- C6 witness: the divergence at layer height 1. -/
theorem degenerate_zrange_witness :
    intensityNp 1 1 1 = .error .zeroDivision ∧ intensityC 1 1 1 = 0xffffff :=
  degenerate_zrange_backends_diverge 1 1 1 rfl

theorem npAccum_degenerate (l : List ℚ) (zmn zmx : ℚ) (w : ℚ → ℕ)
    (h : zmx - zmn = 0) (hl : l ≠ []) :
    npAccum l zmn zmx w = .error .zeroDivision := by
  cases l with
  | nil => exact absurd rfl hl
  | cons Z l =>
    rw [npAccum, List.foldlM_cons, intensityNp, if_pos h]
    rfl

/-- C6 counterexample: on the two-layer document with both heights 1, the
vectorized render fails with a division-by-zero error while the native render
succeeds (producing, with an everywhere-nonzero mask, the summed full-white
intensities `0xffffff + 0xffffff`, whose red channel wraps to 254). -/
theorem degenerate_zrange_counterexample :
    npImage d1 1 (fun _ _ _ => 1) = .error .zeroDivision ∧
    cImage d1 1 (fun _ _ _ => 1) = .ok [[(254, 255, 255)]] := by
  have hδ : pyDelta 1 (254 / 10 : ℚ) = .ok 1 := by
    rw [pyDelta_ok 1 (254 / 10) (by norm_num) (by norm_num)]
    norm_num [deltaQ]
  have hzd : maxQ [(1:ℚ), 1] - minQ [(1:ℚ), 1] = 0 := by
    rw [show minQ [(1:ℚ), 1] = 1 from by decide, show maxQ [(1:ℚ), 1] = 1 from by decide]
    ring
  constructor
  · unfold npImage npGrid
    rw [show d1.units = 254 / 10 from rfl, hδ]
    show (Except.ok (arangeLen d1.xmin d1.xmax 1, arangeLen d1.ymin d1.ymax 1, (1:ℚ))).bind _ = _
    rw [show d1.xmin = 0 from rfl, show d1.xmax = 1 from rfl,
        show d1.ymin = 0 from rfl, show d1.ymax = 1 from rfl,
        show arangeLen 0 1 1 = 1 from by unfold arangeLen; norm_num,
        show d1.layers = [(1:ℚ), 1] from rfl]
    dsimp only
    rw [npAccum_degenerate [(1:ℚ), 1] (minQ [(1:ℚ), 1]) (maxQ [(1:ℚ), 1]) (fun _ => 1) hzd
      (by decide)]
    rfl
  · unfold cImage cGrid
    rw [if_neg (by decide : ¬ d1.layers = [])]
    rw [show d1.units = 254 / 10 from rfl, hδ]
    show (Except.ok (truncQ ((d1.xmax - d1.xmin) / 1), truncQ ((d1.ymax - d1.ymin) / 1),
      (1:ℚ))).bind _ = _
    rw [show d1.xmax = 1 from rfl, show d1.xmin = 0 from rfl,
        show d1.ymax = 1 from rfl, show d1.ymin = 0 from rfl,
        show truncQ (((1:ℚ) - 0) / 1) = 1 from by unfold truncQ; norm_num,
        show d1.layers = [(1:ℚ), 1] from rfl]
    dsimp only
    rw [show cAccum [(1:ℚ), 1] (minQ [(1:ℚ), 1]) (maxQ [(1:ℚ), 1]) (fun _ => 1) = 33554430
      from by decide]
    rfl

/-! ## Claim C2: multi-layer accumulation semantics -/

/-- C2 (corrected): with `zmax ≠ zmin`, the native path's per-pixel
accumulator receives, summed over layers in document order and reduced modulo
`2 ^ 32`, the intensity `i = ⌊255 (Z − zmin) / (zmax − zmin)⌋ ∨ 255≪8 ∨ 255≪16`
where the mask is nonzero and `0` where it is zero — but the vectorized
path's accumulator instead receives the bitwise AND `i &&& uint32(value)` of
the intensity with the expression value, which equals `i` only where the
value's set bits cover those of `i` (for a boolean mask it is `i &&& 1`). -/
theorem multilayer_accumulation (l : List ℚ) (zmn zmx : ℚ) (w : ℚ → ℕ)
    (h : zmx - zmn ≠ 0) :
    npAccum l zmn zmx w
      = .ok (((l.map fun Z => intensityVal Z zmn zmx &&& w Z % U32).sum) % U32) ∧
    cAccum l zmn zmx w
      = ((l.map fun Z => if w Z = 0 then 0 else intensityVal Z zmn zmx).sum) % U32 := by
  refine ⟨npAccum_eq_sum l zmn zmx w h, ?_⟩
  rw [cAccum_eq_sum]
  refine congrArg (· % U32) (congrArg List.sum (List.map_congr_left fun Z hZ => ?_))
  by_cases hw : w Z = 0
  · rw [if_pos hw, if_pos hw]
  · rw [if_neg hw, if_neg hw, intensityC,
      if_neg fun he : zmn = zmx => h (by rw [he]; exact sub_self zmx)]

/-- C2 witness: the closed forms at layers `[0, 1]` with a boolean mask. -/
theorem multilayer_accumulation_witness :
    npAccum [0, 1] 0 1 (fun _ => 1)
      = .ok ((([(0:ℚ), 1].map fun Z => intensityVal Z 0 1 &&& 1 % U32).sum) % U32) ∧
    cAccum [0, 1] 0 1 (fun _ => 1)
      = (([(0:ℚ), 1].map fun Z => if (1:ℕ) = 0 then 0 else intensityVal Z 0 1).sum) % U32 :=
  multilayer_accumulation [0, 1] 0 1 (fun _ => 1) (by norm_num)

/-- C2 counterexample: two layers `[0, 1]` with an everywhere-1 mask (a true
boolean mask cast to `uint32`).  The claim's rule would accumulate
`0xffff00 + 0xffffff = 33554175`; the vectorized path accumulates
`(0xffff00 &&& 1) + (0xffffff &&& 1) = 1`. -/
theorem multilayer_mask_and_counterexample :
    npAccum [0, 1] 0 1 (fun _ => 1) = .ok 1 ∧
    claimAccum [0, 1] 0 1 (fun _ => 1) = 33554175 ∧ (1 : ℕ) ≠ 33554175 := by
  have h0 : intensityVal 0 0 1 = 16776960 := by
    unfold intensityVal
    rw [show (255 * ((0:ℚ) - 0) / (1 - 0)) = 0 from by norm_num,
      show truncQ 0 = 0 from by rw [truncQ, if_pos le_rfl]; exact Int.floor_zero]
    decide
  have h1 : intensityVal 1 0 1 = 16777215 := by
    unfold intensityVal
    rw [show (255 * ((1:ℚ) - 0) / (1 - 0)) = 255 from by norm_num,
      show truncQ 255 = 255 from by rw [truncQ, if_pos (by norm_num)]; norm_num]
    decide
  refine ⟨?_, ?_, by decide⟩
  · rw [npAccum_eq_sum [0, 1] 0 1 (fun _ => 1) (by norm_num)]
    simp only [List.map_cons, List.map_nil, List.sum_cons, List.sum_nil, h0, h1]
    decide
  · unfold claimAccum
    simp only [List.map_cons, List.map_nil, List.sum_cons, List.sum_nil, h0, h1]
    decide

/-! ## Claim C4: dpi validation -/

/-- C4 (corrected): neither backend validates the dpi.  For `dpi = 0` both
fail with an uncaught `ZeroDivisionError` while computing the grid pitch —
not with a dedicated `InvalidResolution` check before grid construction.  For
`dpi < 0` both backends proceed to grid construction: the vectorized path
gets empty coordinate axes (zero samples) and the native path gets
nonpositive truncated sample counts. -/
theorem no_dpi_validation :
    (∀ d : Doc, npGrid d 0 = .error .zeroDivision ∧ cGrid d 0 = .error .zeroDivision) ∧
    (∀ (d : Doc) (dpi : ℤ), dpi < 0 → d.xmin < d.xmax → d.ymin < d.ymax → 0 < d.units →
      npGrid d dpi = .ok (0, 0, deltaQ dpi d.units) ∧
      cGrid d dpi = .ok (truncQ ((d.xmax - d.xmin) / deltaQ dpi d.units),
        truncQ ((d.ymax - d.ymin) / deltaQ dpi d.units), deltaQ dpi d.units) ∧
      truncQ ((d.xmax - d.xmin) / deltaQ dpi d.units) ≤ 0 ∧
      truncQ ((d.ymax - d.ymin) / deltaQ dpi d.units) ≤ 0) := by
  constructor
  · intro d
    constructor
    · unfold npGrid pyDelta pyDiv
      rw [if_pos (by norm_num : ((0:ℤ):ℚ) = 0)]
      rfl
    · unfold cGrid pyDelta pyDiv
      rw [if_pos (by norm_num : ((0:ℤ):ℚ) = 0)]
      rfl
  · intro d dpi hdpi hx hy hu
    have hδ : pyDelta dpi d.units = .ok (deltaQ dpi d.units) :=
      pyDelta_ok dpi d.units (by exact_mod_cast hdpi.ne) hu.ne.symm
    have hδneg : deltaQ dpi d.units < 0 := by
      unfold deltaQ
      have h1 : (254 / 10 : ℚ) / (dpi : ℚ) < 0 :=
        div_neg_of_pos_of_neg (by norm_num) (by exact_mod_cast hdpi)
      exact div_neg_of_neg_of_pos h1 hu
    have hrx : (d.xmax - d.xmin) / deltaQ dpi d.units < 0 :=
      div_neg_of_pos_of_neg (sub_pos.mpr hx) hδneg
    have hry : (d.ymax - d.ymin) / deltaQ dpi d.units < 0 :=
      div_neg_of_pos_of_neg (sub_pos.mpr hy) hδneg
    refine ⟨?_, ?_, ?_, ?_⟩
    · unfold npGrid
      rw [hδ]
      show Except.ok _ = _
      rw [show arangeLen d.xmin d.xmax (deltaQ dpi d.units) = 0 from ?_,
          show arangeLen d.ymin d.ymax (deltaQ dpi d.units) = 0 from ?_]
      · unfold arangeLen
        exact Int.toNat_of_nonpos (Int.ceil_le.mpr (by exact_mod_cast hry.le))
      · unfold arangeLen
        exact Int.toNat_of_nonpos (Int.ceil_le.mpr (by exact_mod_cast hrx.le))
    · unfold cGrid
      rw [hδ]
      rfl
    · rw [truncQ, if_neg (not_le.mpr hrx)]
      exact Int.ceil_le.mpr (by exact_mod_cast hrx.le)
    · rw [truncQ, if_neg (not_le.mpr hry)]
      exact Int.ceil_le.mpr (by exact_mod_cast hry.le)

/-- C4 witness: the division-by-zero failure at dpi 0 and the constructed
(empty) grid at dpi −1 on the sample document. -/
theorem no_dpi_validation_witness :
    npGrid d0 0 = .error .zeroDivision ∧ npGrid d0 (-1) = .ok (0, 0, deltaQ (-1) d0.units) :=
  ⟨(no_dpi_validation.1 d0).1,
   (no_dpi_validation.2 d0 (-1) (by norm_num) (by norm_num [d0]) (by norm_num [d0])
      (by norm_num [d0])).1⟩

/-- C4 counterexample: at `dpi = -1` the vectorized backend proceeds past
grid construction with an empty 0×0 grid and the native backend computes the
sample counts `nx = ny = -1` — neither fails with any resolution check. -/
theorem no_dpi_validation_counterexample :
    npGrid d0 (-1) = .ok (0, 0, -1) ∧ cGrid d0 (-1) = .ok (-1, -1, -1) := by
  have hδ : pyDelta (-1) (254 / 10 : ℚ) = .ok (-1) := by
    rw [pyDelta_ok (-1) (254 / 10) (by norm_num) (by norm_num)]
    norm_num [deltaQ]
  have hr : ((1:ℚ) - 0) / (-1) = ((-1 : ℤ) : ℚ) := by norm_num
  constructor
  · unfold npGrid
    rw [show d0.units = 254 / 10 from rfl, hδ]
    show Except.ok (arangeLen d0.xmin d0.xmax (-1), arangeLen d0.ymin d0.ymax (-1), (-1:ℚ)) = _
    rw [show d0.xmin = 0 from rfl, show d0.xmax = 1 from rfl,
        show d0.ymin = 0 from rfl, show d0.ymax = 1 from rfl]
    rw [show arangeLen 0 1 (-1) = 0 from ?_]
    unfold arangeLen
    rw [show ((1:ℚ) - 0) / (-1) = ((-1 : ℤ) : ℚ) from hr, Int.ceil_intCast]
    rfl
  · unfold cGrid
    rw [show d0.units = 254 / 10 from rfl, hδ]
    show Except.ok (truncQ ((d0.xmax - d0.xmin) / (-1)), truncQ ((d0.ymax - d0.ymin) / (-1)), (-1:ℚ)) = _
    rw [show d0.xmax = 1 from rfl, show d0.xmin = 0 from rfl,
        show d0.ymax = 1 from rfl, show d0.ymin = 0 from rfl]
    rw [show truncQ (((1:ℚ) - 0) / (-1)) = -1 from ?_]
    unfold truncQ
    rw [if_neg (by norm_num), show ((1:ℚ) - 0) / (-1) = ((-1 : ℤ) : ℚ) from hr, Int.ceil_intCast]

/-! ## Claim C1: cross-backend equivalence -/

theorem exc_bind_ok {e a b : Type} (x : a) (f : a → Except e b) :
    (Except.ok x >>= f) = f x := rfl

/-- C1 (corrected): the two backends are pixel-identical only on a restricted
common core — a single-layer document whose axis ratios
`(xmax − xmin) / Δ` and `(ymax − ymin) / Δ` are exact natural numbers (so the
`arange` count of the vectorized path and the truncated count of the native
path agree) and whose expression takes only the values `0` and `0xffffff` at
every sample.  Outside that core they differ: the sample counts disagree
whenever an axis ratio is fractional (ceiling vs truncation), the vectorized
path uses the single-layer expression value directly as the packed RGB pixel
while the native path renders full white wherever the value is nonzero, and
the multi-layer accumulations differ as established for claim C2. -/
theorem cross_backend_equiv_restricted (d : Doc) (dpi : ℤ) (v : ℚ → ℚ → ℚ → ℕ) (Z : ℚ)
    (NX NY : ℕ)
    (hl : d.layers = [Z]) (hdpi : 0 < dpi) (hu : d.units ≠ 0)
    (hx : (d.xmax - d.xmin) / deltaQ dpi d.units = (NX : ℚ))
    (hy : (d.ymax - d.ymin) / deltaQ dpi d.units = (NY : ℚ))
    (hv : ∀ x y, v x y Z = 0 ∨ v x y Z = 16777215) :
    npImage d dpi v = cImage d dpi v := by
  have hδ : pyDelta dpi d.units = .ok (deltaQ dpi d.units) :=
    pyDelta_ok dpi d.units (by exact_mod_cast hdpi.ne') hu
  have hnx : arangeLen d.xmin d.xmax (deltaQ dpi d.units) = NX := by
    unfold arangeLen
    rw [hx, Int.ceil_natCast, Int.toNat_natCast]
  have hny : arangeLen d.ymin d.ymax (deltaQ dpi d.units) = NY := by
    unfold arangeLen
    rw [hy, Int.ceil_natCast, Int.toNat_natCast]
  have hcx : truncQ ((d.xmax - d.xmin) / deltaQ dpi d.units) = (NX : ℤ) := by
    rw [truncQ, hx, if_pos (by positivity), Int.floor_natCast]
  have hcy : truncQ ((d.ymax - d.ymin) / deltaQ dpi d.units) = (NY : ℤ) := by
    rw [truncQ, hy, if_pos (by positivity), Int.floor_natCast]
  unfold npImage npGrid cImage cGrid
  rw [hδ, hl]
  rw [exc_bind_ok, exc_bind_ok]
  dsimp only
  rw [hnx, hny, if_neg (by simp : ¬ ([Z] : List ℚ) = []), exc_bind_ok, hcx, hcy, exc_bind_ok]
  dsimp only
  rw [Int.toNat_natCast, Int.toNat_natCast]
  refine congrArg Except.ok ?_
  refine List.map_congr_left fun r hr => ?_
  refine List.map_congr_left fun ix hix => ?_
  show chan (v (xCoord d (deltaQ dpi d.units) ix) (yCoord d (deltaQ dpi d.units) NY r) Z % U32)
      = chan (cAccum [Z] (minQ [Z]) (maxQ [Z])
          (v (xCoord d (deltaQ dpi d.units) ix) (yCoord d (deltaQ dpi d.units) NY r)))
  have hmin : minQ [Z] = Z := rfl
  have hmax : maxQ [Z] = Z := rfl
  rw [hmin, hmax]
  show _ = chan ((0 + if v (xCoord d (deltaQ dpi d.units) ix) (yCoord d (deltaQ dpi d.units) NY r) Z = 0
      then 0 else intensityC Z Z Z) % U32)
  rcases hv (xCoord d (deltaQ dpi d.units) ix) (yCoord d (deltaQ dpi d.units) NY r) with h | h
  · rw [h, if_pos rfl]
  · rw [h, if_neg (by decide : ¬ (16777215 : ℕ) = 0), intensityC, if_pos rfl,
      Nat.zero_add]

/-- C1 witness: an all-white single-layer render of the unit-square document
at dpi 1 is pixel-identical across the backends. -/
theorem cross_backend_equiv_witness :
    npImage d0 1 (fun _ _ _ => 16777215) = cImage d0 1 (fun _ _ _ => 16777215) :=
  cross_backend_equiv_restricted d0 1 (fun _ _ _ => 16777215) 0 1 1 rfl
    (by norm_num) (by show (254 / 10 : ℚ) ≠ 0; norm_num)
    (by show ((1:ℚ) - 0) / deltaQ 1 (254 / 10) = ((1:ℕ) : ℚ); norm_num [deltaQ])
    (by show ((1:ℚ) - 0) / deltaQ 1 (254 / 10) = ((1:ℕ) : ℚ); norm_num [deltaQ])
    (fun _ _ => Or.inr rfl)

/-- C1 counterexample: on the single-layer unit-square document at dpi 1 with
the constant expression value 2, the vectorized backend produces the pixel
`(2, 0, 0)` (the raw packed value) while the native backend produces
`(255, 255, 255)` (full white wherever the scalar function is nonzero) — the
images differ. -/
theorem cross_backend_equiv_counterexample :
    npImage d0 1 (fun _ _ _ => 2) = .ok [[(2, 0, 0)]] ∧
    cImage d0 1 (fun _ _ _ => 2) = .ok [[(255, 255, 255)]] ∧
    (Except.ok [[((2:ℕ), (0:ℕ), (0:ℕ))]] : Except PyErr (List (List (ℕ × ℕ × ℕ))))
      ≠ .ok [[(255, 255, 255)]] := by
  have hδ : pyDelta 1 (254 / 10 : ℚ) = .ok 1 := by
    rw [pyDelta_ok 1 (254 / 10) (by norm_num) (by norm_num)]
    norm_num [deltaQ]
  refine ⟨?_, ?_, by decide⟩
  · have hlen : arangeLen 0 1 1 = 1 := by
      unfold arangeLen
      norm_num
    unfold npImage npGrid
    rw [show d0.units = 254 / 10 from rfl, hδ]
    show (Except.ok (arangeLen d0.xmin d0.xmax 1, arangeLen d0.ymin d0.ymax 1, (1:ℚ))).bind _ = _
    rw [show d0.xmin = 0 from rfl, show d0.xmax = 1 from rfl,
        show d0.ymin = 0 from rfl, show d0.ymax = 1 from rfl, hlen]
    show Except.ok _ = _
    decide
  · have htr : truncQ ((1 : ℚ) - 0) = 1 := by
      unfold truncQ
      norm_num
    unfold cImage cGrid
    rw [if_neg (by decide : ¬ d0.layers = [])]
    rw [show d0.units = 254 / 10 from rfl, hδ]
    show (Except.ok (truncQ ((d0.xmax - d0.xmin) / 1), truncQ ((d0.ymax - d0.ymin) / 1),
      (1:ℚ))).bind _ = _
    rw [show d0.xmax = 1 from rfl, show d0.xmin = 0 from rfl,
        show d0.ymax = 1 from rfl, show d0.ymin = 0 from rfl]
    rw [show ((1 : ℚ) - 0) / 1 = 1 - 0 from by norm_num, htr]
    show Except.ok _ = _
    decide

end IFRep
